import Mathlib

/-!
# Verification of the AutoSherpa conversation-state machine

Shallow embedding of the conversation-state core of the Autosherpa_bot
repository (`conversation_state.py`, `car_valuation_flow.py`, `emi_flow.py`,
`browse_car_flow.py`, `main.py`) together with proofs of the specification
claims about it.

Python strings are modelled as `List Char`; a Python value that can be
`None` (or, where noted, empty/falsy) is modelled as `Option`.  Python
`float` arithmetic is modelled exactly over `ℚ`; `round(x, n)` is Python's
banker's rounding, modelled by `bankersRound`.
-/

namespace AutoSherpa

/-- Python strings as lists of characters. -/
abbrev Msg := List Char

/-- Coerce a Lean string literal to the `Msg` model. -/
def str (s : String) : Msg := s.data

/-- ASCII whitespace, as stripped by Python `str.strip()`. -/
def pyIsSpace (c : Char) : Bool :=
  c = ' ' || c = '\t' || c = '\n' || c = '\r' || c = '\x0b' || c = '\x0c'

/-- Python `str.lower()` (ASCII case folding suffices for the vocabularies). -/
def pyLower (m : Msg) : Msg := m.map Char.toLower

/-- Python `str.strip()`: drop whitespace from both ends. -/
def pyStrip (m : Msg) : Msg :=
  ((m.dropWhile pyIsSpace).reverse.dropWhile pyIsSpace).reverse

/-- Python `needle in haystack` substring test. -/
def pyContains (haystack needle : Msg) : Bool :=
  haystack.tails.any fun t => List.isPrefixOf needle t

/-- Python `x or y` for optional values: `none` models a falsy
(`None`/empty) Python value. -/
def pyOr {α : Type} (new old : Option α) : Option α :=
  match new with
  | some v => some v
  | none => old

/-- Membership of a string key in a Python container (e.g. dict keys). -/
def listHas (l : List Msg) (k : Msg) : Bool :=
  l.any fun x => decide (x = k)

end AutoSherpa

namespace AutoSherpa

/-! ## `conversation_state.py`: flow-switch detection -/

/-- The four flows of `main.py`'s `VALID_FLOWS`. -/
inductive Flow : Type
  | service_booking
  | emi
  | car_valuation
  | browse_car
deriving DecidableEq

/-- Intent extraction result as consumed by `detect_flow_switch`:
the classified `intent` string and the keys of the `entities` dict. -/
structure IntentResult : Type where
  intent : Msg
  entities : List Msg

/-- The `short_responses` vocabulary of `is_short_response`
(`conversation_state.py` lines 184-188). -/
def shortResponses : List Msg :=
  [str "no", str "n", str "yes", str "y", str "ok", str "okay", str "sure",
   str "fine", str "alright", str "change", str "modify", str "different",
   str "new", str "restart", str "back", str "1", str "2", str "3",
   str "4", str "5"]

/-- Source `is_short_response` (`conversation_state.py` lines 174-189). -/
def is_short_response (message : Msg) : Bool :=
  let messageLower := pyLower (pyStrip message)
  decide (messageLower ∈ shortResponses) || decide (messageLower.length ≤ 3)

/-- Source `service_keywords` (`conversation_state.py` line 217). -/
def serviceKeywords : List Msg :=
  [str "book service", str "service booking", str "book a service",
   str "servicing", str "repair", str "maintenance"]

/-- Source `is_service_intent` (`conversation_state.py` lines 218-222). -/
def isServiceIntent (ir : IntentResult) (textLower : Msg) : Bool :=
  let intentLower := pyLower ir.intent
  (pyContains intentLower (str "service") && pyContains intentLower (str "booking")) ||
  (pyContains intentLower (str "book") && pyContains textLower (str "service")) ||
  serviceKeywords.any fun k => pyContains textLower k

/-- Source `emi_keywords` (`conversation_state.py` line 224). -/
def emiKeywords : List Msg :=
  [str "emi", str "loan", str "installment", str "finance",
   str "down payment", str "monthly payment", str "calculate emi"]

/-- Source `is_emi_intent` (`conversation_state.py` lines 225-230). -/
def isEmiIntent (ir : IntentResult) (textLower : Msg) : Bool :=
  let intentLower := pyLower ir.intent
  pyContains intentLower (str "emi") ||
  (pyContains intentLower (str "loan") && pyContains textLower (str "calculate")) ||
  (pyContains intentLower (str "finance") && pyContains textLower (str "calculate")) ||
  emiKeywords.any fun k => pyContains textLower k

/-- Source `valuation_keywords` (`conversation_state.py` line 232). -/
def valuationKeywords : List Msg :=
  [str "value", str "valuation", str "price", str "worth", str "resale",
   str "sell", str "how much", str "estimate", str "appraise"]

/-- Source `is_valuation_intent` (`conversation_state.py` lines 233-237). -/
def isValuationIntent (ir : IntentResult) (textLower : Msg) : Bool :=
  let intentLower := pyLower ir.intent
  (pyContains intentLower (str "value") || pyContains intentLower (str "valuation")) ||
  (pyContains intentLower (str "price") && pyContains textLower (str "car")) ||
  valuationKeywords.any fun k => pyContains textLower k

/-- Source `browse_keywords` (`conversation_state.py` line 239). -/
def browseKeywords : List Msg :=
  [str "browse", str "buy", str "purchase", str "looking for",
   str "want to buy", str "want a", str "want", str "search",
   str "find car", str "used car", str "used cars", str "show me", str "i want"]

/-- Car-type words checked by `is_browse_intent` (`conversation_state.py` line 247). -/
def browseCarTypes : List Msg :=
  [str "sedan", str "suv", str "hatchback", str "coupe", str "convertible",
   str "car", str "vehicle"]

/-- Source `is_browse_intent` (`conversation_state.py` lines 240-250). -/
def isBrowseIntent (ir : IntentResult) (textLower : Msg) : Bool :=
  let intentLower := pyLower ir.intent
  pyContains intentLower (str "browse") ||
  (pyContains intentLower (str "buy") && pyContains textLower (str "car")) ||
  (pyContains intentLower (str "purchase") && pyContains textLower (str "car")) ||
  (browseKeywords.any fun k => pyContains textLower k) ||
  ((pyContains textLower (str "want") || pyContains textLower (str "looking")) &&
    browseCarTypes.any fun k => pyContains textLower k) ||
  (decide (ir.entities ≠ []) &&
    (listHas ir.entities (str "car_type") || listHas ir.entities (str "vehicle_type") ||
     listHas ir.entities (str "product")))

/-- Candidate target-flow selection of `detect_flow_switch`
(`conversation_state.py` lines 252-261): an `if/elif` chain in the order
service, emi, valuation, browse. -/
def targetFlowOf (ir : IntentResult) (textLower : Msg) : Option Flow :=
  if isServiceIntent ir textLower then some .service_booking
  else if isEmiIntent ir textLower then some .emi
  else if isValuationIntent ir textLower then some .car_valuation
  else if isBrowseIntent ir textLower then some .browse_car
  else none

/-- Source `explicit_keywords` (`conversation_state.py` lines 269-274). -/
def explicitKeywords : Flow → List Msg
  | .service_booking => [str "book service", str "service booking", str "book a service"]
  | .emi => [str "calculate emi", str "emi calculation", str "loan calculation"]
  | .car_valuation => [str "car valuation", str "value my car", str "appraise"]
  | .browse_car => [str "browse cars", str "show me cars", str "find cars"]

/-- Source `detect_flow_switch` (`conversation_state.py` lines 192-281).
`intent_result = None` is modelled by `none`; `current_flow` is one of the
(non-empty) flow names or `None`, so Python truthiness is `Option.isSome`.
`current_step` is accepted but, as in the source, never read. -/
def detect_flow_switch (intentResult : Option IntentResult) (message : Msg)
    (currentFlow : Option Flow) (currentStep : Option Msg) : Option Flow :=
  match intentResult with
  | none => none
  | some ir =>
    if currentFlow.isSome && is_short_response message then none
    else
      let textLower := pyLower message
      match targetFlowOf ir textLower with
      | none => none
      | some targetFlow =>
        if some targetFlow ≠ currentFlow then
          if currentFlow.isSome then
            if (explicitKeywords targetFlow).any (fun k => pyContains textLower k) then
              some targetFlow
            else none
          else some targetFlow
        else none

end AutoSherpa

namespace AutoSherpa

/-! Sanity checks on the detector embedding (concrete evaluations). -/

example : is_short_response (str " Yes ") = true := by decide
example : is_short_response (str "calculate emi") = false := by decide

example :
    detect_flow_switch (some ⟨str "emi_calculation", []⟩) (str "calculate emi")
      (some .browse_car) none = some .emi := by decide

example :
    detect_flow_switch (some ⟨str "emi_calculation", []⟩) (str "emi")
      (some .browse_car) none = none := by decide

example :
    detect_flow_switch (some ⟨str "", []⟩) (str "i want to sell my old car")
      none none = some .car_valuation := by decide

end AutoSherpa

namespace AutoSherpa

/-! ## Claims C2, C3, C4: properties of `detect_flow_switch` -/

/-- Claim C2: for every message whose lowercased stripped text is in the fixed
short-response vocabulary or has length at most three characters, and every
non-`None` current flow, `detect_flow_switch` returns `None`: a short
response while a flow is active never produces a flow switch. -/
theorem short_response_never_switches (intentResult : Option IntentResult)
    (message : Msg) (flow : Flow) (currentStep : Option Msg)
    (h : pyLower (pyStrip message) ∈ shortResponses ∨
      (pyLower (pyStrip message)).length ≤ 3) :
    detect_flow_switch intentResult message (some flow) currentStep = none := by
  have hshort : is_short_response message = true := by
    unfold is_short_response
    rcases h with h | h <;> simp [h]
  cases intentResult with
  | none => rfl
  | some ir =>
    unfold detect_flow_switch
    simp [hshort]

/-- Witness for C2: the message `"yes"` during the EMI flow. -/
theorem short_response_never_switches_witness :
    (pyLower (pyStrip (str "yes")) ∈ shortResponses ∨
      (pyLower (pyStrip (str "yes"))).length ≤ 3) ∧
    detect_flow_switch (some ⟨str "emi_calculation", []⟩) (str "yes")
      (some .emi) none = none :=
  ⟨by decide,
   short_response_never_switches (some ⟨str "emi_calculation", []⟩) (str "yes")
     .emi none (by decide)⟩

/-- Claim C3: when a flow is active, `detect_flow_switch` approves a switch to a
different flow only if the message contains one of the target flow's stricter
explicit phrases; when no flow is active, the looser vocabulary match
(`targetFlowOf`) alone suffices for the target flow to be returned. -/
theorem switch_requires_explicit_phrase :
    (∀ (ir : IntentResult) (message : Msg) (currentFlow : Flow)
      (currentStep : Option Msg) (targetFlow : Flow),
      detect_flow_switch (some ir) message (some currentFlow) currentStep =
        some targetFlow →
      targetFlow ≠ currentFlow ∧
        ((explicitKeywords targetFlow).any
          (fun k => pyContains (pyLower message) k)) = true) ∧
    (∀ (ir : IntentResult) (message : Msg) (currentStep : Option Msg)
      (targetFlow : Flow),
      targetFlowOf ir (pyLower message) = some targetFlow →
      detect_flow_switch (some ir) message none currentStep = some targetFlow) := by
  constructor
  · intro ir message currentFlow currentStep targetFlow h
    unfold detect_flow_switch at h
    by_cases hshort : is_short_response message = true
    · simp [hshort] at h
    · simp only [Option.isSome_some, Bool.true_and, hshort, if_neg,
        Bool.false_eq_true, not_false_eq_true, if_false] at h
      rcases htf : targetFlowOf ir (pyLower message) with _ | tf
      · rw [htf] at h; simp at h
      · rw [htf] at h
        simp only [Option.isSome_some, if_true] at h
        by_cases hne : some tf ≠ some currentFlow
        · rw [if_pos hne] at h
          by_cases hexp : ((explicitKeywords tf).any
              (fun k => pyContains (pyLower message) k)) = true
          · rw [if_pos hexp] at h
            cases h
            refine ⟨?_, hexp⟩
            intro hEq
            exact hne (by rw [hEq])
          · rw [if_neg hexp] at h; cases h
        · rw [if_neg hne] at h; cases h
  · intro ir message currentStep targetFlow h
    unfold detect_flow_switch
    simp only [Option.isSome_none, Bool.false_and, Bool.false_eq_true,
      not_false_eq_true, if_false, if_neg, h]
    simp

/-- Witness for C3: switching from browse to EMI needs `"calculate emi"`;
with no active flow the loose keyword `"worth"` already selects valuation. -/
theorem switch_requires_explicit_phrase_witness :
    (Flow.emi ≠ Flow.browse_car ∧
      ((explicitKeywords .emi).any
        (fun k => pyContains (pyLower (str "please calculate emi")) k)) = true) ∧
    detect_flow_switch (some ⟨str "", []⟩) (str "what is my car worth") none none =
      some .car_valuation :=
  ⟨switch_requires_explicit_phrase.1 ⟨str "", []⟩ (str "please calculate emi")
      .browse_car none .emi (by decide),
   switch_requires_explicit_phrase.2 ⟨str "", []⟩ (str "what is my car worth")
      none .car_valuation (by decide)⟩

/-- Whether a flow's keyword/intent vocabulary matches, as tested by
`detect_flow_switch` (the `is_*_intent` booleans). -/
def matchesVocab (f : Flow) (ir : IntentResult) (textLower : Msg) : Bool :=
  match f with
  | .service_booking => isServiceIntent ir textLower
  | .emi => isEmiIntent ir textLower
  | .car_valuation => isValuationIntent ir textLower
  | .browse_car => isBrowseIntent ir textLower

/-- The spec's fixed priority order:
`service_booking > emi > valuation > browse_car`. -/
def flowPriorityOrder : List Flow :=
  [.service_booking, .emi, .car_valuation, .browse_car]

/-- Modelled from the spec's words: the selected candidate is the
highest-priority flow whose vocabulary matched. -/
def prioritizedTarget (ir : IntentResult) (textLower : Msg) : Option Flow :=
  (flowPriorityOrder.filter fun f => matchesVocab f ir textLower).head?

/-- Rank in the fixed priority order (`0` is highest). -/
def flowRank : Flow → ℕ
  | .service_booking => 0
  | .emi => 1
  | .car_valuation => 2
  | .browse_car => 3

/-- Claim C4: the candidate selection inside `detect_flow_switch` is exactly
"the highest-priority flow whose vocabulary matched" under the fixed order
service_booking > emi > valuation > browse_car; consequently any flow
returned by `detect_flow_switch` matches, and no strictly higher-priority
flow matches. -/
theorem target_flow_priority :
    (∀ (ir : IntentResult) (textLower : Msg),
      targetFlowOf ir textLower = prioritizedTarget ir textLower) ∧
    (∀ (ir : IntentResult) (message : Msg) (currentFlow : Option Flow)
      (currentStep : Option Msg) (targetFlow : Flow),
      detect_flow_switch (some ir) message currentFlow currentStep =
        some targetFlow →
      matchesVocab targetFlow ir (pyLower message) = true ∧
        ∀ g : Flow, flowRank g < flowRank targetFlow →
          matchesVocab g ir (pyLower message) = false) := by
  have key : ∀ (ir : IntentResult) (textLower : Msg) (tf : Flow),
      targetFlowOf ir textLower = some tf →
      matchesVocab tf ir textLower = true ∧
        ∀ g : Flow, flowRank g < flowRank tf →
          matchesVocab g ir textLower = false := by
    intro ir textLower tf h
    unfold targetFlowOf at h
    by_cases hs : isServiceIntent ir textLower = true
    · rw [if_pos hs] at h; cases h
      exact ⟨hs, by intro g hg; cases g <;> simp [flowRank] at hg⟩
    · rw [if_neg hs] at h
      by_cases he : isEmiIntent ir textLower = true
      · rw [if_pos he] at h; cases h
        refine ⟨he, ?_⟩
        intro g hg
        cases g <;> simp [flowRank] at hg ⊢
        exact eq_false_of_ne_true hs
      · rw [if_neg he] at h
        by_cases hv : isValuationIntent ir textLower = true
        · rw [if_pos hv] at h; cases h
          refine ⟨hv, ?_⟩
          intro g hg
          cases g <;> simp [flowRank] at hg ⊢
          · exact eq_false_of_ne_true hs
          · exact eq_false_of_ne_true he
        · rw [if_neg hv] at h
          by_cases hb : isBrowseIntent ir textLower = true
          · rw [if_pos hb] at h; cases h
            refine ⟨hb, ?_⟩
            intro g hg
            cases g <;> simp [flowRank] at hg ⊢
            · exact eq_false_of_ne_true hs
            · exact eq_false_of_ne_true he
            · exact eq_false_of_ne_true hv
          · rw [if_neg hb] at h; cases h
  constructor
  · intro ir textLower
    unfold targetFlowOf prioritizedTarget flowPriorityOrder
    by_cases hs : isServiceIntent ir textLower = true <;>
      by_cases he : isEmiIntent ir textLower = true <;>
        by_cases hv : isValuationIntent ir textLower = true <;>
          by_cases hb : isBrowseIntent ir textLower = true <;>
            simp [hs, he, hv, hb, matchesVocab]
  · intro ir message currentFlow currentStep targetFlow h
    have htf : targetFlowOf ir (pyLower message) = some targetFlow := by
      simp only [detect_flow_switch] at h
      by_cases hshort : (currentFlow.isSome && is_short_response message) = true
      · rw [if_pos hshort] at h; cases h
      · rw [if_neg hshort] at h
        rcases hcand : targetFlowOf ir (pyLower message) with _ | tf
        · rw [hcand] at h; simp at h
        · rw [hcand] at h
          simp only [] at h
          by_cases hne : some tf ≠ currentFlow
          · rw [if_pos hne] at h
            by_cases hcf : currentFlow.isSome = true
            · rw [if_pos hcf] at h
              by_cases hexp : ((explicitKeywords tf).any
                  (fun k => pyContains (pyLower message) k)) = true
              · rw [if_pos hexp] at h; cases h; rfl
              · rw [if_neg hexp] at h; cases h
            · rw [if_neg hcf] at h; cases h; rfl
          · rw [if_neg hne] at h; cases h
    exact key ir (pyLower message) targetFlow htf

/-- Witness for C4: `"emi worth"` matches both the EMI and the valuation
vocabularies; the detector selects EMI, the higher-priority flow. -/
theorem target_flow_priority_witness :
    (matchesVocab .emi ⟨str "", []⟩ (pyLower (str "emi worth")) = true ∧
      ∀ g : Flow, flowRank g < flowRank .emi →
        matchesVocab g ⟨str "", []⟩ (pyLower (str "emi worth")) = false) ∧
    matchesVocab .car_valuation ⟨str "", []⟩ (pyLower (str "emi worth")) = true :=
  ⟨target_flow_priority.2 ⟨str "", []⟩ (str "emi worth") none none .emi (by decide),
   by decide⟩

end AutoSherpa

namespace AutoSherpa

/-! ## `emi_flow.py`: EMI computation (claim C5)

`float` arithmetic is modelled exactly over `ℚ`; Python's `round(x, 2)`
(banker's rounding to two decimals) is `pyRound2`. -/

/-- Python `round` to an integer: round half to even. -/
def bankersRound (q : ℚ) : ℤ :=
  if q - ⌊q⌋ < 1/2 then ⌊q⌋
  else if (1 : ℚ)/2 < q - ⌊q⌋ then ⌊q⌋ + 1
  else if 2 ∣ ⌊q⌋ then ⌊q⌋ else ⌊q⌋ + 1

/-- Python `round(x, 2)`. -/
def pyRound2 (q : ℚ) : ℚ := (bankersRound (q * 100) : ℚ) / 100

/-- Source `DEFAULT_INTEREST_RATE = 9.5` (`emi_flow.py` line 16). -/
def DEFAULT_INTEREST_RATE : ℚ := 19/2

/-- Source `EMI_TENURE_OPTIONS` (`emi_flow.py` line 17). -/
def EMI_TENURE_OPTIONS : List ℕ := [12, 24, 36, 48, 60, 72]

/-- Result record of `calculate_emi`. -/
structure EMIResult : Type where
  emi : ℚ
  total_amount : ℚ
  total_interest : ℚ
  principal : ℚ
  rate : ℚ
  tenure_months : ℕ

/-- Source `calculate_emi` (`emi_flow.py` lines 68-117). -/
def calculate_emi (principal : ℚ) (annual_rate : ℚ) (tenure_months : ℕ) :
    EMIResult :=
  if principal ≤ 0 ∨ tenure_months ≤ 0 then
    { emi := 0, total_amount := 0, total_interest := 0,
      principal := principal, rate := annual_rate, tenure_months := tenure_months }
  else
    let monthly_rate := annual_rate / 12 / 100
    let emi :=
      if monthly_rate = 0 then principal / tenure_months
      else principal * monthly_rate * (1 + monthly_rate) ^ tenure_months /
        ((1 + monthly_rate) ^ tenure_months - 1)
    let total_amount := emi * tenure_months
    let total_interest := total_amount - principal
    { emi := pyRound2 emi, total_amount := pyRound2 total_amount,
      total_interest := pyRound2 total_interest,
      principal := principal, rate := annual_rate, tenure_months := tenure_months }

theorem bankersRound_sub_abs_le (q : ℚ) : |(bankersRound q : ℚ) - q| ≤ 1/2 := by
  have hfl : (⌊q⌋ : ℚ) ≤ q := Int.floor_le q
  have hfu : q < ⌊q⌋ + 1 := Int.lt_floor_add_one q
  unfold bankersRound
  by_cases h1 : q - ⌊q⌋ < 1/2
  · rw [if_pos h1, abs_sub_comm, abs_of_nonneg (by linarith)]
    linarith
  · rw [if_neg h1]
    by_cases h2 : (1 : ℚ)/2 < q - ⌊q⌋
    · rw [if_pos h2]
      rw [abs_of_nonneg (by push_cast; linarith)]
      push_cast
      linarith
    · rw [if_neg h2]
      have heq : q - ⌊q⌋ = 1/2 := le_antisymm (le_of_not_lt h2) (le_of_not_lt h1)
      by_cases h3 : 2 ∣ ⌊q⌋
      · rw [if_pos h3, abs_sub_comm, abs_of_nonneg (by linarith)]
        linarith
      · rw [if_neg h3, abs_of_nonneg (by push_cast; linarith)]
        push_cast
        linarith

theorem pyRound2_sub_abs_le (q : ℚ) : |pyRound2 q - q| ≤ 1/200 := by
  have h := bankersRound_sub_abs_le (q * 100)
  unfold pyRound2
  have : (bankersRound (q * 100) : ℚ) / 100 - q =
      ((bankersRound (q * 100) : ℚ) - q * 100) / 100 := by ring
  rw [this, abs_div, abs_of_pos (by norm_num : (0:ℚ) < 100)]
  linarith [abs_nonneg ((bankersRound (q * 100) : ℚ) - q * 100)]

/-- The exact (pre-rounding) monthly payment computed by `calculate_emi`. -/
def emiExact (principal annual_rate : ℚ) (tenure_months : ℕ) : ℚ :=
  let monthly_rate := annual_rate / 12 / 100
  if monthly_rate = 0 then principal / tenure_months
  else principal * monthly_rate * (1 + monthly_rate) ^ tenure_months /
    ((1 + monthly_rate) ^ tenure_months - 1)

/-- Claim C5: for positive principal and tenure, `calculate_emi` rounds the
standard amortized payment `P·r·(1+r)^n / ((1+r)^n − 1)` (simple division
`P/n` when the rate is zero), and the returned record satisfies
`emi × tenure_months ≈ total_amount` and
`total_amount − principal ≈ total_interest` up to rounding tolerance. -/
theorem calculate_emi_roundtrip (principal annual_rate : ℚ) (tenure_months : ℕ)
    (hP : 0 < principal) (hn : 0 < tenure_months) :
    (calculate_emi principal annual_rate tenure_months).emi =
      pyRound2 (emiExact principal annual_rate tenure_months) ∧
    |(calculate_emi principal annual_rate tenure_months).emi * tenure_months -
        (calculate_emi principal annual_rate tenure_months).total_amount| ≤
      (tenure_months + 1) / 200 ∧
    |(calculate_emi principal annual_rate tenure_months).total_amount -
        principal -
        (calculate_emi principal annual_rate tenure_months).total_interest| ≤
      1/100 := by
  have hcond : ¬(principal ≤ 0 ∨ tenure_months ≤ 0) := by
    push_neg
    exact ⟨hP, hn⟩
  have hrec : calculate_emi principal annual_rate tenure_months =
      { emi := pyRound2 (emiExact principal annual_rate tenure_months),
        total_amount :=
          pyRound2 (emiExact principal annual_rate tenure_months * tenure_months),
        total_interest :=
          pyRound2 (emiExact principal annual_rate tenure_months * tenure_months -
            principal),
        principal := principal, rate := annual_rate,
        tenure_months := tenure_months } := by
    unfold calculate_emi emiExact
    rw [if_neg hcond]
  rw [hrec]
  refine ⟨rfl, ?_, ?_⟩
  · set e := emiExact principal annual_rate tenure_months with he
    have h1 := pyRound2_sub_abs_le e
    have h2 := pyRound2_sub_abs_le (e * tenure_months)
    have hsplit : pyRound2 e * tenure_months - pyRound2 (e * tenure_months) =
        (pyRound2 e - e) * tenure_months +
          (e * tenure_months - pyRound2 (e * tenure_months)) := by ring
    calc |pyRound2 e * tenure_months - pyRound2 (e * tenure_months)|
        ≤ |(pyRound2 e - e) * tenure_months| +
            |e * tenure_months - pyRound2 (e * tenure_months)| := by
          rw [hsplit]; exact abs_add _ _
      _ ≤ (tenure_months : ℚ) / 200 + 1/200 := by
          gcongr
          · rw [abs_mul, abs_of_nonneg (by positivity : (0:ℚ) ≤ (tenure_months : ℚ))]
            calc |pyRound2 e - e| * (tenure_months : ℚ)
                ≤ (1/200) * (tenure_months : ℚ) := by
                  exact mul_le_mul_of_nonneg_right h1 (by positivity)
              _ = (tenure_months : ℚ) / 200 := by ring
          · rw [abs_sub_comm]; exact h2
      _ = ((tenure_months : ℚ) + 1) / 200 := by ring
  · set t := emiExact principal annual_rate tenure_months * tenure_months with ht
    have h2 := pyRound2_sub_abs_le t
    have h3 := pyRound2_sub_abs_le (t - principal)
    have hsplit : pyRound2 t - principal - pyRound2 (t - principal) =
        (pyRound2 t - t) + ((t - principal) - pyRound2 (t - principal)) := by ring
    calc |pyRound2 t - principal - pyRound2 (t - principal)|
        ≤ |pyRound2 t - t| + |(t - principal) - pyRound2 (t - principal)| := by
          rw [hsplit]; exact abs_add _ _
      _ ≤ 1/200 + 1/200 := by
          gcongr
          rw [abs_sub_comm]; exact h3
      _ = 1/100 := by norm_num

/-- Witness for C5: the spec's scenario principal `500000`, annual rate
`9.5`, tenure `36` months satisfies the hypotheses and the round-trip. -/
theorem calculate_emi_roundtrip_witness :
    (calculate_emi 500000 DEFAULT_INTEREST_RATE 36).emi =
      pyRound2 (emiExact 500000 DEFAULT_INTEREST_RATE 36) ∧
    |(calculate_emi 500000 DEFAULT_INTEREST_RATE 36).emi * (36 : ℕ) -
        (calculate_emi 500000 DEFAULT_INTEREST_RATE 36).total_amount| ≤
      ((36 : ℕ) + 1) / 200 ∧
    |(calculate_emi 500000 DEFAULT_INTEREST_RATE 36).total_amount - 500000 -
        (calculate_emi 500000 DEFAULT_INTEREST_RATE 36).total_interest| ≤
      1/100 :=
  calculate_emi_roundtrip 500000 DEFAULT_INTEREST_RATE 36 (by norm_num)
    (by norm_num)

end AutoSherpa

namespace AutoSherpa

/-! ## `car_valuation_flow.py`: valuation computation (claims C6, C7)

`calculate_car_valuation` is modelled on its database-less path (the car
database is an external collaborator): the base price is the
`brand_base_prices` fallback lookup with default `800000`
(`car_valuation_flow.py` lines 180-195).  The `model` and `fuel_type`
arguments never enter the computation and are omitted. -/

/-- Association-list lookup (Python `dict.get`). -/
def lookupQ : List (Msg × ℚ) → Msg → Option ℚ
  | [], _ => none
  | (k, v) :: rest, key => if k = key then some v else lookupQ rest key

/-- Source `CONDITION_MULTIPLIERS` (`car_valuation_flow.py` lines 27-34). -/
def CONDITION_MULTIPLIERS : List (Msg × ℚ) :=
  [(str "excellent", 1), (str "very good", 9/10), (str "good", 8/10),
   (str "average", 7/10), (str "fair", 6/10), (str "poor", 5/10)]

/-- Source `CONDITION_MULTIPLIERS.get(condition.lower(), 0.7)`
(`car_valuation_flow.py` lines 210-211). -/
def conditionMult (condition : Msg) : ℚ :=
  (lookupQ CONDITION_MULTIPLIERS (pyLower condition)).getD (7/10)

/-- Source `brand_base_prices` (`car_valuation_flow.py` lines 183-194). -/
def brand_base_prices : List (Msg × ℚ) :=
  [(str "Tata", 800000), (str "Hyundai", 900000), (str "Maruti", 700000),
   (str "Mahindra", 850000), (str "Honda", 1000000), (str "Toyota", 1100000),
   (str "Ford", 950000), (str "Renault", 800000), (str "Skoda", 1200000),
   (str "Nissan", 900000)]

/-- Source `brand_base_prices.get(brand, 800000)` (`car_valuation_flow.py` line 195). -/
def basePriceFor (brand : Msg) : ℚ :=
  (lookupQ brand_base_prices brand).getD 800000

/-- Age depreciation of `calculate_car_valuation`
(`car_valuation_flow.py` lines 201-207). -/
def depreciationFactor (age : ℤ) : ℚ :=
  max (1/5)
    (if age ≤ 5 then 1 - (age : ℚ) * (1/10) else 1/2 - ((age : ℚ) - 5) * (1/20))

/-- Result record of `calculate_car_valuation`. -/
structure ValuationResult : Type where
  base_price : ℚ
  depreciation_factor : ℚ
  condition_multiplier : ℚ
  final_valuation : ℚ
  valuation_lakhs : ℚ
  age_years : ℤ

/-- Source `calculate_car_valuation` (`car_valuation_flow.py` lines 197-228),
database-less path; `current_year` stands for `datetime.now().year`. -/
def calculate_car_valuation (current_year : ℤ) (brand : Msg) (year : ℤ)
    (condition : Msg) : ValuationResult :=
  let base_price := basePriceFor brand
  let age := current_year - year
  let depreciation_factor := depreciationFactor age
  let condition_mult := conditionMult condition
  let depreciated_price := base_price * depreciation_factor
  let final_valuation :=
    (bankersRound (depreciated_price * condition_mult / 1000) : ℚ) * 1000
  { base_price := base_price,
    depreciation_factor := depreciation_factor,
    condition_multiplier := condition_mult,
    final_valuation := final_valuation,
    valuation_lakhs := final_valuation / 100000,
    age_years := age }

theorem bankersRound_intCast (k : ℤ) : bankersRound (k : ℚ) = k := by
  unfold bankersRound
  rw [Int.floor_intCast]
  rw [if_pos (by norm_num : ((k : ℚ) - k) < 1/2)]

example : conditionMult (str "Good") = 8/10 := by
  unfold conditionMult CONDITION_MULTIPLIERS
  simp only [lookupQ]
  rw [if_neg (by decide), if_neg (by decide), if_pos (by decide)]
  rfl

example : conditionMult (str "unknown words") = 7/10 := by
  unfold conditionMult CONDITION_MULTIPLIERS
  simp only [lookupQ]
  rw [if_neg (by decide), if_neg (by decide), if_neg (by decide),
    if_neg (by decide), if_neg (by decide), if_neg (by decide)]
  rfl

set_option maxHeartbeats 1000000 in
/-- Every base price the fallback table can produce is a multiple of
`50000` between `700000` and `1200000`. -/
theorem basePriceFor_cases (brand : Msg) :
    ∃ m : ℤ, basePriceFor brand = 50000 * m ∧
      700000 ≤ basePriceFor brand ∧ basePriceFor brand ≤ 1200000 := by
  unfold basePriceFor brand_base_prices
  simp only [lookupQ]
  split_ifs <;> simp only [Option.getD_some, Option.getD_none]
  · exact ⟨16, by norm_num⟩
  · exact ⟨18, by norm_num⟩
  · exact ⟨14, by norm_num⟩
  · exact ⟨17, by norm_num⟩
  · exact ⟨20, by norm_num⟩
  · exact ⟨22, by norm_num⟩
  · exact ⟨19, by norm_num⟩
  · exact ⟨16, by norm_num⟩
  · exact ⟨24, by norm_num⟩
  · exact ⟨18, by norm_num⟩
  · exact ⟨16, by norm_num⟩

/-- The condition multiplier always lies in `[1/2, 1]` (table values and
the `0.7` default). -/
theorem conditionMult_bounds (condition : Msg) :
    1/2 ≤ conditionMult condition ∧ conditionMult condition ≤ 1 := by
  unfold conditionMult CONDITION_MULTIPLIERS
  simp only [lookupQ]
  split_ifs <;> simp only [Option.getD_some, Option.getD_none] <;> norm_num

/-- For a non-negative age the depreciation factor lies in `[1/5, 1]`. -/
theorem depreciationFactor_bounds (age : ℤ) (hage : 0 ≤ age) :
    1/5 ≤ depreciationFactor age ∧ depreciationFactor age ≤ 1 := by
  have hq : (0 : ℚ) ≤ (age : ℚ) := by exact_mod_cast hage
  unfold depreciationFactor
  refine ⟨le_max_left _ _, ?_⟩
  apply max_le (by norm_num)
  split_ifs with h
  · linarith
  · have : (5 : ℚ) < (age : ℚ) := by exact_mod_cast not_le.mp h
    linarith

end AutoSherpa

namespace AutoSherpa

/-- Table lookup: `conditionMult "poor" = 0.5`. -/
theorem conditionMult_poor : conditionMult (str "poor") = 1/2 := by
  unfold conditionMult CONDITION_MULTIPLIERS
  simp only [lookupQ]
  rw [if_neg (by decide), if_neg (by decide), if_neg (by decide),
    if_neg (by decide), if_neg (by decide), if_pos (by decide)]
  norm_num

/-- Table lookup: `conditionMult "good" = 0.8`. -/
theorem conditionMult_good_eval : conditionMult (str "good") = 8/10 := by
  unfold conditionMult CONDITION_MULTIPLIERS
  simp only [lookupQ]
  rw [if_neg (by decide), if_neg (by decide), if_pos (by decide)]
  rfl

/-- Table lookup: `basePriceFor "Tata" = 800000`. -/
theorem basePriceFor_Tata : basePriceFor (str "Tata") = 800000 := by
  unfold basePriceFor brand_base_prices
  simp only [lookupQ]
  rw [if_pos (by decide)]
  rfl

/-- Claim C6, counterexample: a valid input (year `1990` with current year
`2025`, condition `"poor"`) drives the final valuation down to
`0.2 × 0.5 = 0.1` of the base price, below the claimed `0.2 × base_price`
lower bound. -/
theorem valuation_lower_bound_counterexample :
    (1990 : ℤ) ≤ 1990 ∧ (1990 : ℤ) ≤ 2025 ∧
    (calculate_car_valuation 2025 (str "Tata") 1990 (str "poor")).base_price =
      800000 ∧
    (calculate_car_valuation 2025 (str "Tata") 1990 (str "poor")).final_valuation =
      80000 ∧
    ¬((1/5) *
        (calculate_car_valuation 2025 (str "Tata") 1990 (str "poor")).base_price ≤
      (calculate_car_valuation 2025 (str "Tata") 1990 (str "poor")).final_valuation) := by
  have hdep : depreciationFactor (2025 - 1990) = 1/5 := by
    unfold depreciationFactor
    rw [if_neg (by norm_num)]
    rw [max_eq_left (by push_cast; norm_num)]
  simp only [calculate_car_valuation, hdep, conditionMult_poor, basePriceFor_Tata]
  have h80 : (800000 : ℚ) * (1/5) * (1/2) / 1000 = ((80 : ℤ) : ℚ) := by norm_num
  rw [h80, bankersRound_intCast]
  norm_num

/-- Claim C6, amended: for every valid input (year within
`[1990, current_year]`, any condition string), the final valuation
satisfies `0.1 × base_price ≤ final_valuation ≤ base_price`.
(The code floors the depreciation factor at `0.2` and the condition
multiplier can be as low as `0.5`, so the reachable lower bound is
`0.1 × base_price`, attained in the counterexample above; the upper
bound `base_price` holds as claimed.) -/
theorem valuation_bounds (current_year : ℤ) (brand : Msg) (year : ℤ)
    (condition : Msg) (h1 : 1990 ≤ year) (h2 : year ≤ current_year) :
    (1/10) *
        (calculate_car_valuation current_year brand year condition).base_price ≤
      (calculate_car_valuation current_year brand year condition).final_valuation ∧
    (calculate_car_valuation current_year brand year condition).final_valuation ≤
      (calculate_car_valuation current_year brand year condition).base_price := by
  obtain ⟨m, hm, hb1, hb2⟩ := basePriceFor_cases brand
  obtain ⟨hc1, hc2⟩ := conditionMult_bounds condition
  have hage : 0 ≤ current_year - year := by omega
  obtain ⟨hd1, hd2⟩ := depreciationFactor_bounds (current_year - year) hage
  simp only [calculate_car_valuation]
  set base := basePriceFor brand with hbase
  set dep := depreciationFactor (current_year - year) with hdepd
  set mult := conditionMult condition with hmult
  have hbpos : (0 : ℚ) < base := by linarith
  have h0d : (0 : ℚ) ≤ dep := by linarith
  have h0m : (0 : ℚ) ≤ mult := by linarith
  have hdm_lb : (1/10 : ℚ) ≤ dep * mult := by
    have h := mul_le_mul hd1 hc1 (by norm_num) h0d
    linarith
  have hdm_ub : dep * mult ≤ 1 := by
    have h := mul_le_mul hd2 hc2 h0m (by norm_num)
    linarith
  have hassoc : base * (dep * mult) = base * dep * mult := by ring
  have hpre_lb : base * (1/10) ≤ base * dep * mult := by
    have h := mul_le_mul_of_nonneg_left hdm_lb (le_of_lt hbpos)
    rw [hassoc] at h
    linarith
  have hpre_ub : base * dep * mult ≤ base := by
    have h := mul_le_mul_of_nonneg_left hdm_ub (le_of_lt hbpos)
    rw [hassoc] at h
    linarith
  set pre := base * dep * mult with hpre
  have hR := bankersRound_sub_abs_le (pre / 1000)
  rw [abs_le] at hR
  obtain ⟨hRl, hRu⟩ := hR
  set R := bankersRound (pre / 1000) with hRdef
  -- upper bound: R ≤ 50 m, hence final ≤ base
  have hup : R ≤ 50 * m := by
    have h1' : (R : ℚ) ≤ pre / 1000 + 1/2 := by linarith
    have h2' : (R : ℚ) < 50 * (m : ℚ) + 1 := by
      have : pre / 1000 ≤ base / 1000 := by linarith
      rw [hm] at this
      linarith
    have : (R : ℚ) < ((50 * m + 1 : ℤ) : ℚ) := by push_cast; linarith
    have hlt : R < 50 * m + 1 := by exact_mod_cast this
    omega
  -- lower bound: 5 m ≤ R, hence base / 10 ≤ final
  have hlo : 5 * m ≤ R := by
    have h1' : pre / 1000 - 1/2 ≤ (R : ℚ) := by linarith
    have h2' : 5 * (m : ℚ) - 1 < (R : ℚ) := by
      have : base * (1/10) / 1000 ≤ pre / 1000 := by linarith
      rw [hm] at this
      linarith
    have : ((5 * m - 1 : ℤ) : ℚ) < (R : ℚ) := by push_cast; linarith
    have hlt : 5 * m - 1 < R := by exact_mod_cast this
    omega
  constructor
  · have : ((5 * m : ℤ) : ℚ) ≤ (R : ℚ) := by exact_mod_cast hlo
    rw [hm]
    push_cast at this ⊢
    nlinarith
  · have : (R : ℚ) ≤ ((50 * m : ℤ) : ℚ) := by exact_mod_cast hup
    rw [hm]
    push_cast at this ⊢
    nlinarith

/-- Witness for the amended C6: a 2020 Honda in excellent condition,
current year 2025. -/
theorem valuation_bounds_witness :
    (1990 : ℤ) ≤ 2020 ∧ (2020 : ℤ) ≤ 2025 ∧
    ((1/10) *
        (calculate_car_valuation 2025 (str "Honda") 2020 (str "excellent")).base_price ≤
      (calculate_car_valuation 2025 (str "Honda") 2020 (str "excellent")).final_valuation ∧
    (calculate_car_valuation 2025 (str "Honda") 2020 (str "excellent")).final_valuation ≤
      (calculate_car_valuation 2025 (str "Honda") 2020 (str "excellent")).base_price) :=
  ⟨by norm_num, by norm_num,
   valuation_bounds 2025 (str "Honda") 2020 (str "excellent") (by norm_num)
     (by norm_num)⟩

end AutoSherpa

namespace AutoSherpa

/-- The claim's depreciation schedule, stated in its words: the value drops
10% of the base per year of age for the first five years and 5% per year
beyond that, floored at 20%. -/
def specDepreciationSchedule (age : ℕ) : ℚ :=
  max (1/5)
    (1 - (1/10) * (min age 5 : ℕ) - (1/20) * ((age - min age 5 : ℕ) : ℚ))

/-- Claim C7: the code's age-depreciation factor realises the claimed
schedule (10%/year accrued over the first 5 years of age, 5%/year beyond,
floored at 20% of base), and in the spec scenario — a car manufactured
three years before the current year in `"good"` condition — the
depreciation factor is `0.70`, the condition multiplier `0.8`, and the
final valuation exactly `base_price × 0.56`. -/
theorem depreciation_schedule_correct :
    (∀ age : ℕ, depreciationFactor (age : ℤ) = specDepreciationSchedule age) ∧
    (∀ (current_year : ℤ) (brand : Msg),
      (calculate_car_valuation current_year brand (current_year - 3)
          (str "good")).depreciation_factor = 7/10 ∧
      (calculate_car_valuation current_year brand (current_year - 3)
          (str "good")).condition_multiplier = 8/10 ∧
      (calculate_car_valuation current_year brand (current_year - 3)
          (str "good")).final_valuation =
        (calculate_car_valuation current_year brand (current_year - 3)
            (str "good")).base_price * (56/100)) := by
  constructor
  · intro a
    unfold depreciationFactor specDepreciationSchedule
    by_cases ha : a ≤ 5
    · have hz : (a : ℤ) ≤ 5 := by exact_mod_cast ha
      rw [if_pos hz, min_eq_left ha, Nat.sub_self]
      push_cast
      ring_nf
    · have hz : ¬((a : ℤ) ≤ 5) := by
        intro h
        exact ha (by exact_mod_cast h)
      have h5a : 5 ≤ a := by omega
      rw [if_neg hz, min_eq_right (by omega : 5 ≤ a)]
      have hsub : ((a - 5 : ℕ) : ℚ) = (a : ℚ) - 5 := by
        push_cast [Nat.cast_sub h5a]
        ring
      rw [hsub]
      push_cast
      ring_nf
  · intro current_year brand
    have hage : current_year - (current_year - 3) = 3 := by ring
    have hdep : depreciationFactor 3 = 7/10 := by
      unfold depreciationFactor
      rw [if_pos (by norm_num)]
      rw [max_eq_right (by push_cast; norm_num)]
      push_cast
      norm_num
    simp only [calculate_car_valuation, hage, hdep, conditionMult_good_eval]
    refine ⟨trivial, trivial, ?_⟩
    obtain ⟨m, hm, hb1, hb2⟩ := basePriceFor_cases brand
    have hdiv : basePriceFor brand * (7/10) * (8/10) / 1000 = ((28 * m : ℤ) : ℚ) := by
      rw [hm]
      push_cast
      ring
    rw [hdiv, bankersRound_intCast, hm]
    push_cast
    ring

end AutoSherpa

namespace AutoSherpa

/-! ## `ConversationManager` store and the valuation flow's field merge
(claim C1) -/

/-- The in-memory keyed store of `ConversationManager._states`
(`conversation_state.py` line 49). -/
def Store (α : Type) : Type := Msg → Option α

/-- Source `ConversationManager.set_state` (`conversation_state.py` lines 55-58);
`last_updated` is not modelled. -/
def Store.set {α : Type} (st : Store α) (uid : Msg) (r : α) : Store α :=
  fun u => if u = uid then some r else st u

/-- Source `ConversationManager.clear_state` (`conversation_state.py` lines 73-76). -/
def Store.clear {α : Type} (st : Store α) (uid : Msg) : Store α :=
  fun u => if u = uid then none else st u

/-- The five data fields of the valuation flow's conversation record. -/
inductive VField : Type
  | brand
  | model
  | year
  | fuel_type
  | condition
deriving DecidableEq

/-- A value stored in the valuation flow's `data` dict: a string or an
integer year. -/
abbrev ValValue := Msg ⊕ ℤ

/-- Valuation-flow conversation record (`ConversationState` with its
`data` restricted to the valuation fields). -/
structure VRecord : Type where
  flow_name : Option Flow
  step : Option Msg
  vdata : VField → Option ValValue

/-- A fresh record, as created by `update_data` when no state exists
(`conversation_state.py` lines 81-82). -/
def freshVRecord : VRecord :=
  { flow_name := none, step := none, vdata := fun _ => none }

/-- Python `dict.update`: apply keyword assignments left to right,
overwriting whatever was stored (also with `None`). -/
def applyAssignments :
    List (VField × Option ValValue) → (VField → Option ValValue) →
      (VField → Option ValValue)
  | [], d => d
  | (f, v) :: rest, d => applyAssignments rest fun g => if g = f then v else d g

/-- Source `ConversationManager.update_data` (`conversation_state.py` lines
78-86): pure-overwrite merge of the keyword arguments into `data`. -/
def update_data (st : Store VRecord) (uid : Msg)
    (kwargs : List (VField × Option ValValue)) : Store VRecord :=
  let rec0 := (st uid).getD freshVRecord
  st.set uid { rec0 with vdata := applyAssignments kwargs rec0.vdata }

/-- The `collecting_info` merge-and-write of `handle_car_valuation_flow`
(`car_valuation_flow.py` lines 411-446, non-`change` path): each field is
`extracted-if-non-null, else previously stored`, then written back with
`update_data`. `none` models a null/absent extraction. -/
def valuationExtractMerge (st : Store VRecord) (uid : Msg)
    (extraction : VField → Option ValValue) : Store VRecord :=
  let state := (st uid).getD freshVRecord
  let merged : VField → Option ValValue := fun f =>
    pyOr (extraction f) (state.vdata f)
  update_data st uid
    [(VField.brand, merged .brand), (VField.model, merged .model),
     (VField.year, merged .year), (VField.fuel_type, merged .fuel_type),
     (VField.condition, merged .condition)]

/-- Claim C1: `update_data` is pure overwrite at the store level, and the
valuation flow's merge writes `extracted-if-non-null, else stored` for
every field, so once a field holds a non-null value a later null/absent
extraction for it leaves the stored value unchanged. -/
theorem never_overwrite_known_data :
    (∀ (st : Store VRecord) (uid : Msg) (rec : VRecord) (f : VField)
      (v : ValValue) (extraction : VField → Option ValValue),
      st uid = some rec → rec.vdata f = some v → extraction f = none →
      ∃ rec', valuationExtractMerge st uid extraction uid = some rec' ∧
        rec'.vdata f = some v) ∧
    (∀ (st : Store VRecord) (uid : Msg) (f : VField) (v : Option ValValue),
      ∃ rec', update_data st uid [(f, v)] uid = some rec' ∧
        rec'.vdata f = v) := by
  constructor
  · intro st uid rec f v extraction hst hdata hext
    unfold valuationExtractMerge update_data Store.set
    rw [hst]
    simp only [Option.getD_some]
    refine ⟨_, rfl, ?_⟩
    cases f <;> simp [applyAssignments, pyOr, hext, hdata]
  · intro st uid f v
    unfold update_data Store.set
    refine
      ⟨{ flow_name := ((st uid).getD freshVRecord).flow_name,
         step := ((st uid).getD freshVRecord).step,
         vdata := applyAssignments [(f, v)] ((st uid).getD freshVRecord).vdata },
       ?_, ?_⟩
    · rw [if_pos rfl]
    · simp [applyAssignments]

/-- Witness for C1: a stored brand `"Honda"` survives a message whose
extraction returns null for every field. -/
theorem never_overwrite_known_data_witness :
    (∃ rec',
      valuationExtractMerge
        (fun u => if u = str "u" then
          some { flow_name := some .car_valuation,
                 step := some (str "collecting_info"),
                 vdata := fun f =>
                   if f = VField.brand then some (Sum.inl (str "Honda"))
                   else none }
          else none)
        (str "u") (fun _ => none) (str "u") = some rec' ∧
      rec'.vdata VField.brand = some (Sum.inl (str "Honda"))) ∧
    (∃ rec',
      update_data (fun _ => none) (str "u")
        [(VField.year, some (Sum.inr 2020))] (str "u") = some rec' ∧
      rec'.vdata VField.year = some (Sum.inr 2020)) :=
  ⟨never_overwrite_known_data.1 _ (str "u")
      { flow_name := some .car_valuation,
        step := some (str "collecting_info"),
        vdata := fun f =>
          if f = VField.brand then some (Sum.inl (str "Honda")) else none }
      VField.brand (Sum.inl (str "Honda")) (fun _ => none) rfl rfl rfl,
   never_overwrite_known_data.2 (fun _ => none) (str "u") VField.year
      (some (Sum.inr 2020))⟩

end AutoSherpa

namespace AutoSherpa

/-! ## `browse_car_flow.py`: test-drive collection (claim C8) -/

/-- Source `data` fields of the test-drive sub-flow. -/
structure TestDriveData : Type where
  test_drive_date : Option Msg
  test_drive_time : Option Msg
  test_drive_name : Option Msg
  test_drive_phone : Option Msg
  test_drive_has_dl : Option Bool
  test_drive_location : Option Msg
  test_drive_address : Option Msg

/-- Conversation record of the test-drive sub-flow. -/
structure TDRecord : Type where
  step : Msg
  tdata : TestDriveData

/-- Output of `analyze_test_drive_details` as consumed by the handler. -/
structure TDAnalysis : Type where
  needs_confirmation : Bool
  extracted_date : Option Msg
  extracted_time : Option Msg
  extracted_name : Option Msg
  extracted_phone : Option Msg
  extracted_has_dl : Option Bool
  extracted_location : Option Msg

/-- The reply chosen by `handle_flexible_test_drive_collection`; each tag
stands for the corresponding literal reply string in the source,
`licenseApology` for the policy-apology message of
`browse_car_flow.py` lines 364-369. -/
inductive TDReply : Type
  | confirmRequest
  | askDate
  | askTime
  | askName
  | askPhone
  | askDl
  | licenseApology
  | askLocation
  | askAddress
  | confirmSummary
deriving DecidableEq

/-- The per-field `update_data` merges of
`handle_flexible_test_drive_collection` (`browse_car_flow.py` lines
309-321): each extracted value overwrites only when non-null
(`extracted_has_dl` is compared with `is not None`, so an extracted
`False` is stored). -/
def applyTDExtraction (d : TestDriveData) (a : TDAnalysis) : TestDriveData :=
  { test_drive_date := pyOr a.extracted_date d.test_drive_date,
    test_drive_time := pyOr a.extracted_time d.test_drive_time,
    test_drive_name := pyOr a.extracted_name d.test_drive_name,
    test_drive_phone := pyOr a.extracted_phone d.test_drive_phone,
    test_drive_has_dl := pyOr a.extracted_has_dl d.test_drive_has_dl,
    test_drive_location := pyOr a.extracted_location d.test_drive_location,
    test_drive_address := d.test_drive_address }

/-- Source `handle_flexible_test_drive_collection`, main analyzer path
(`browse_car_flow.py` lines 283-431; the LLM-validation detours for the
name/address steps and the analyzer-failure fallback are outside this
model).  Returns the store after the handler's mutations and the reply. -/
def handle_test_drive_collection (st : Store TDRecord) (uid : Msg)
    (rec : TDRecord) (analysis : TDAnalysis) : Store TDRecord × TDReply :=
  if analysis.needs_confirmation then (st, .confirmRequest)
  else
    let d := applyTDExtraction rec.tdata analysis
    let st1 := st.set uid { rec with tdata := d }
    if d.test_drive_date = none then
      (st1.set uid { step := str "test_drive_date", tdata := d }, .askDate)
    else if d.test_drive_time = none then
      (st1.set uid { step := str "test_drive_time", tdata := d }, .askTime)
    else if d.test_drive_name = none then
      (st1.set uid { step := str "test_drive_name", tdata := d }, .askName)
    else if d.test_drive_phone = none then
      (st1.set uid { step := str "test_drive_phone", tdata := d }, .askPhone)
    else if d.test_drive_has_dl = none then
      (st1.set uid { step := str "test_drive_dl", tdata := d }, .askDl)
    else if d.test_drive_has_dl = some false then
      (st1.clear uid, .licenseApology)
    else if d.test_drive_location = none then
      (st1.set uid { step := str "test_drive_location", tdata := d }, .askLocation)
    else if d.test_drive_location = some (str "home") ∧
        d.test_drive_address = none then
      (st1.set uid { step := str "test_drive_address", tdata := d }, .askAddress)
    else
      (st1.set uid { step := str "test_drive_confirm", tdata := d }, .confirmSummary)

/-- Claim C8: at the driving-license step, an extracted `has_dl = False`
makes the handler remove the user's conversation record from the store
entirely and reply with the policy apology, regardless of the data
collected so far. -/
theorem license_rejection_clears_state (st : Store TDRecord) (uid : Msg)
    (rec : TDRecord) (analysis : TDAnalysis)
    (hstep : rec.step = str "test_drive_dl")
    (hdate : rec.tdata.test_drive_date.isSome = true)
    (htime : rec.tdata.test_drive_time.isSome = true)
    (hname : rec.tdata.test_drive_name.isSome = true)
    (hphone : rec.tdata.test_drive_phone.isSome = true)
    (hconf : analysis.needs_confirmation = false)
    (hdl : analysis.extracted_has_dl = some false) :
    (handle_test_drive_collection st uid rec analysis).2 = .licenseApology ∧
    (handle_test_drive_collection st uid rec analysis).1 uid = none := by
  obtain ⟨vd, hvd⟩ := Option.isSome_iff_exists.mp hdate
  obtain ⟨vt, hvt⟩ := Option.isSome_iff_exists.mp htime
  obtain ⟨vn, hvn⟩ := Option.isSome_iff_exists.mp hname
  obtain ⟨vp, hvp⟩ := Option.isSome_iff_exists.mp hphone
  cases h1 : analysis.extracted_date <;>
    cases h2 : analysis.extracted_time <;>
      cases h3 : analysis.extracted_name <;>
        cases h4 : analysis.extracted_phone <;>
          simp [handle_test_drive_collection, applyTDExtraction, pyOr,
            hconf, hdl, hvd, hvt, hvn, hvp, h1, h2, h3, h4, Store.clear]

/-- Witness for C8: a fully filled test-drive record where the user
answers "no" at the license question. -/
theorem license_rejection_clears_state_witness :
    (handle_test_drive_collection (fun _ => none) (str "u")
        { step := str "test_drive_dl",
          tdata :=
            { test_drive_date := some (str "tomorrow"),
              test_drive_time := some (str "5 pm"),
              test_drive_name := some (str "Jo"),
              test_drive_phone := some (str "9999999999"),
              test_drive_has_dl := none,
              test_drive_location := none,
              test_drive_address := none } }
        { needs_confirmation := false,
          extracted_date := none, extracted_time := none,
          extracted_name := none, extracted_phone := none,
          extracted_has_dl := some false,
          extracted_location := none }).2 = .licenseApology ∧
    (handle_test_drive_collection (fun _ => none) (str "u")
        { step := str "test_drive_dl",
          tdata :=
            { test_drive_date := some (str "tomorrow"),
              test_drive_time := some (str "5 pm"),
              test_drive_name := some (str "Jo"),
              test_drive_phone := some (str "9999999999"),
              test_drive_has_dl := none,
              test_drive_location := none,
              test_drive_address := none } }
        { needs_confirmation := false,
          extracted_date := none, extracted_time := none,
          extracted_name := none, extracted_phone := none,
          extracted_has_dl := some false,
          extracted_location := none }).1 (str "u") = none :=
  license_rejection_clears_state _ _ _ _ rfl rfl rfl rfl rfl rfl rfl

end AutoSherpa

namespace AutoSherpa

/-! ## `emi_flow.py`: the `down_payment` step (claim C9) -/

/-- The selected car as used by the EMI flow (only its price matters). -/
structure EMICar : Type where
  price : ℚ

/-- Source `data` fields of the EMI flow. -/
structure EMIFlowData : Type where
  selected_car : Option EMICar
  down_payment : Option ℚ
  tenure : Option ℕ

/-- Conversation record of the EMI flow. -/
structure EMIRecord : Type where
  step : Msg
  edata : EMIFlowData

/-- The reply chosen by the `down_payment` branch of `handle_emi_flow`;
each tag stands for the corresponding literal reply string. -/
inductive EMIReply : Type
  | noCarSelected
  | changeRestart
  | downPaymentTooHigh
  | downPaymentNegative
  | emiOptions
  | askDownPayment
deriving DecidableEq

/-- The `down_payment` step of `handle_emi_flow` (`emi_flow.py` lines
370-447).  `down_payment` is the extracted amount (analysis result or
regex fallback); `none` also models Python-falsy `0.0` being treated as
"no extraction" by `if down_payment:` — the literal `0.0` case is kept
explicit below.  `changeIntent` is the
`"changing_criteria" in user_intent or "change" in message` test. -/
def handle_emi_down_payment (st : Store EMIRecord) (uid : Msg)
    (rec : EMIRecord) (down_payment : Option ℚ) (changeIntent : Bool) :
    Store EMIRecord × EMIReply :=
  match rec.edata.selected_car with
  | none =>
      (st.set uid { rec with step := str "selecting_car" }, .noCarSelected)
  | some car =>
      if changeIntent then
        (st.set uid
          { step := str "selecting_car",
            edata := { rec.edata with
                       selected_car := none
                       down_payment := none } },
         .changeRestart)
      else
        match down_payment with
        | none => (st, .askDownPayment)
        | some dp =>
          if dp = 0 then (st, .askDownPayment)
          else if car.price ≤ dp then (st, .downPaymentTooHigh)
          else if dp < 0 then (st, .downPaymentNegative)
          else
            (st.set uid
              { step := str "selecting_tenure",
                edata := { rec.edata with down_payment := some dp } },
             .emiOptions)

/-- Claim C9: with a selected car and no change intent, an extracted down
payment is committed (stored, step advanced to `selecting_tenure`) exactly
when `0 < down_payment < car_price`; otherwise (too high, non-positive, or
missing) the handler replies with a targeted re-ask and leaves the store —
step and previously collected data — untouched. -/
theorem down_payment_validation (st : Store EMIRecord) (uid : Msg)
    (rec : EMIRecord) (car : EMICar) (down_payment : Option ℚ)
    (hcar : rec.edata.selected_car = some car) :
    (∀ dp : ℚ, down_payment = some dp → 0 < dp → dp < car.price →
      handle_emi_down_payment st uid rec down_payment false =
        (st.set uid
          { step := str "selecting_tenure",
            edata := { rec.edata with down_payment := some dp } },
         .emiOptions)) ∧
    ((∀ dp : ℚ, down_payment = some dp → dp ≤ 0 ∨ car.price ≤ dp) →
      (handle_emi_down_payment st uid rec down_payment false).1 = st ∧
        ((handle_emi_down_payment st uid rec down_payment false).2 =
            .downPaymentTooHigh ∨
         (handle_emi_down_payment st uid rec down_payment false).2 =
            .downPaymentNegative ∨
         (handle_emi_down_payment st uid rec down_payment false).2 =
            .askDownPayment)) := by
  constructor
  · intro dp hdp h0 hlt
    subst hdp
    unfold handle_emi_down_payment
    rw [hcar]
    simp only [Bool.false_eq_true, if_false]
    rw [if_neg (by linarith : ¬dp = 0),
      if_neg (by linarith : ¬car.price ≤ dp),
      if_neg (by linarith : ¬dp < 0)]
  · intro hbad
    unfold handle_emi_down_payment
    rw [hcar]
    simp only [Bool.false_eq_true, if_false]
    cases down_payment with
    | none => exact ⟨rfl, Or.inr (Or.inr rfl)⟩
    | some dp =>
      have hd := hbad dp rfl
      simp only []
      by_cases hz : dp = 0
      · rw [if_pos hz]
        exact ⟨rfl, Or.inr (Or.inr rfl)⟩
      · rw [if_neg hz]
        by_cases hh : car.price ≤ dp
        · rw [if_pos hh]
          exact ⟨rfl, Or.inl rfl⟩
        · rw [if_neg hh]
          have hneg : dp < 0 := by
            rcases hd with hd | hd
            · rcases lt_or_eq_of_le hd with h | h
              · exact h
              · exact absurd h hz
            · exact absurd hd hh
          rw [if_pos hneg]
          exact ⟨rfl, Or.inr (Or.inl rfl)⟩

/-- Witness for C9: a ₹200000 down payment on a ₹500000 car is committed;
a ₹600000 one is rejected without touching the store. -/
theorem down_payment_validation_witness :
    (handle_emi_down_payment (fun _ => none) (str "u")
        { step := str "down_payment",
          edata := { selected_car := some { price := 500000 },
                     down_payment := none, tenure := none } }
        (some 200000) false =
      (Store.set (fun _ => none) (str "u")
        { step := str "selecting_tenure",
          edata := { selected_car := some { price := 500000 },
                     down_payment := some 200000, tenure := none } },
       .emiOptions)) ∧
    ((handle_emi_down_payment (fun _ => none) (str "u")
        { step := str "down_payment",
          edata := { selected_car := some { price := 500000 },
                     down_payment := none, tenure := none } }
        (some 600000) false).1 = (fun _ => none : Store EMIRecord) ∧
      ((handle_emi_down_payment (fun _ => none) (str "u")
          { step := str "down_payment",
            edata := { selected_car := some { price := 500000 },
                       down_payment := none, tenure := none } }
          (some 600000) false).2 = .downPaymentTooHigh ∨
       (handle_emi_down_payment (fun _ => none) (str "u")
          { step := str "down_payment",
            edata := { selected_car := some { price := 500000 },
                       down_payment := none, tenure := none } }
          (some 600000) false).2 = .downPaymentNegative ∨
       (handle_emi_down_payment (fun _ => none) (str "u")
          { step := str "down_payment",
            edata := { selected_car := some { price := 500000 },
                       down_payment := none, tenure := none } }
          (some 600000) false).2 = .askDownPayment)) :=
  ⟨(down_payment_validation _ _ _ { price := 500000 } (some 200000) rfl).1
      200000 rfl (by norm_num) (by norm_num),
   (down_payment_validation _ _ _ { price := 500000 } (some 600000) rfl).2
      (by intro dp h; injection h with h2; subst h2; norm_num)⟩

end AutoSherpa

namespace AutoSherpa

/-! ## `main.py`: outbound-reply sanitization (claim C10) -/

/-- The fixed fallback reply of `validate_and_sanitize_response`
(`main.py` lines 259-262 and 268-271). -/
def fallbackResponse : Msg :=
  str "I encountered an issue processing your request. Please try again with a clear message."

/-- Source `validate_and_sanitize_response` (`main.py` lines 250-278):
`none` models `response_text = None`. -/
def validate_and_sanitize_response (response_text : Option Msg) : Msg :=
  match response_text with
  | none => fallbackResponse
  | some t =>
    if t = [] then fallbackResponse
    else
      let sanitized := pyStrip t
      if sanitized = [] then fallbackResponse
      else if 4096 < sanitized.length then sanitized.take 4093 ++ str "..."
      else sanitized

/-- The message body posted by `send_whatsapp_message` (`main.py` lines
973-1028): every outbound reply is passed through
`validate_and_sanitize_response` before being placed in the payload. -/
def send_whatsapp_body (message : Option Msg) : Msg :=
  validate_and_sanitize_response message

/-- Claim C10: for any candidate reply (including `None`, empty, or
whitespace-only) the body actually sent is a non-empty string of at most
4096 characters; an invalid reply is replaced by the fixed fallback, and a
reply whose stripped text exceeds 4096 characters is truncated to its
first 4093 characters plus `"..."`. -/
theorem sent_body_valid (message : Option Msg) :
    send_whatsapp_body message ≠ [] ∧
    (send_whatsapp_body message).length ≤ 4096 ∧
    ((message = none ∨ pyStrip (message.getD []) = []) →
      send_whatsapp_body message = fallbackResponse) ∧
    (∀ t : Msg, message = some t → 4096 < (pyStrip t).length →
      send_whatsapp_body message = (pyStrip t).take 4093 ++ str "...") := by
  have hfb1 : fallbackResponse ≠ [] := by decide
  have hfb2 : fallbackResponse.length ≤ 4096 := by decide
  have hstrip_nil : pyStrip ([] : Msg) = [] := by decide
  cases message with
  | none => exact ⟨hfb1, hfb2, fun _ => rfl, fun t ht => by cases ht⟩
  | some t =>
    unfold send_whatsapp_body validate_and_sanitize_response
    simp only []
    by_cases ht0 : t = []
    · subst ht0
      rw [if_pos rfl]
      refine ⟨hfb1, hfb2, fun _ => rfl, ?_⟩
      intro t' ht' hlen
      injection ht' with h
      subst h
      rw [hstrip_nil] at hlen
      simp at hlen
    · rw [if_neg ht0]
      by_cases hs0 : pyStrip t = []
      · rw [if_pos hs0]
        exact ⟨hfb1, hfb2, fun _ => rfl,
          fun t' ht' hlen => by
            injection ht' with h
            subst h
            rw [hs0] at hlen
            simp at hlen⟩
      · rw [if_neg hs0]
        by_cases hlong : 4096 < (pyStrip t).length
        · rw [if_pos hlong]
          refine ⟨?_, ?_, ?_, ?_⟩
          · simp [str]
          · rw [List.length_append, List.length_take]
            have : min 4093 (pyStrip t).length = 4093 := by omega
            rw [this]
            simp [str]
          · intro h
            rcases h with h | h
            · cases h
            · exact absurd h hs0
          · intro t' ht' _
            injection ht' with h
            subst h
            rfl
        · rw [if_neg hlong]
          refine ⟨hs0, by omega, ?_, ?_⟩
          · intro h
            rcases h with h | h
            · cases h
            · exact absurd h hs0
          · intro t' ht' hlen
            injection ht' with h
            subst h
            exact absurd hlen hlong

/-- Witness for C10: a `None` reply is replaced by the non-empty fallback. -/
theorem sent_body_valid_witness :
    send_whatsapp_body none = fallbackResponse ∧
    send_whatsapp_body none ≠ [] ∧
    (send_whatsapp_body none).length ≤ 4096 :=
  ⟨(sent_body_valid none).2.2.1 (Or.inl rfl), (sent_body_valid none).1,
   (sent_body_valid none).2.1⟩

end AutoSherpa
